import Mathlib

/-!
Verification development for the allaboutdocuments document pipeline.

The repository ingests PDF uploads, stores them under session directories,
extracts text page by page, chunks text for a FAISS retriever, and issues
LLM calls for metadata analysis, document comparison and conversational
question answering.  This file gives a shallow embedding of the relevant
operations and proves or refutes the stated properties about them.

Side effects (file writes, directory removals, LLM calls, warning logs)
are made explicit: each embedded operation returns its result together
with the ordered list of effects it performed.
-/

/-! ## A small model of the Python runtime pieces the code relies on -/

/-- A Python traceback object: the source only reads the code file name and
the line number out of it. -/
structure PyTraceback where
  fileName : String
  lineNo : Nat
deriving DecidableEq

/-- The exception classes that occur in the embedded code paths. -/
inductive PyExcKind where
  | typeError
  | attributeError
  | valueError
  | zeroDivisionError
  | outputParserError
  | runtimeError
  | allAboutDocuments
deriving DecidableEq

/-- A Python exception object: its class, its message and the traceback
attached to it (none when it was never raised). -/
structure PyExc where
  kind : PyExcKind
  msg : String
  traceback : Option PyTraceback
deriving DecidableEq

/-- The second argument actually passed to the wrapping constructor at the
call sites: either an exception object, or the `sys` module itself (several
call sites pass `sys` where an exception is expected). -/
inductive ExcArg where
  | exc (e : PyExc)
  | sysModule
deriving DecidableEq

/-- Reading the attribute `__traceback__` off the constructor argument.
Exception objects carry the attribute; the `sys` module does not, so the
attribute access raises AttributeError. -/
def tracebackAttr : ExcArg → Except PyExc (Option PyTraceback)
  | .exc e => .ok e.traceback
  | .sysModule =>
      .error ⟨.attributeError, "module sys has no attribute __traceback__", none⟩

/-- Python tuple unpacking applied to the value of `__traceback__`.  That
value is either None or a traceback object; neither is iterable, so CPython
raises TypeError in both cases. -/
def unpackThree (v : Option PyTraceback) :
    Except PyExc (Option PyTraceback × Option PyTraceback × Option PyTraceback) :=
  match v with
  | none => .error ⟨.typeError, "cannot unpack non-iterable NoneType object", none⟩
  | some _ => .error ⟨.typeError, "cannot unpack non-iterable traceback object", none⟩

/-- The attributes the constructor of AllAboutDocumentsException stores on a
successfully built exception object. -/
structure AllAboutDocumentsExceptionObj where
  file_name : String
  linenumber : Option Nat
  error_message : String
  traceback_str : String
deriving DecidableEq

/-- Stand-in for the joined output of traceback.format_exception, which is
only reached when a traceback is available. -/
def formatExceptionStr (tb : PyTraceback) : String :=
  "File " ++ tb.fileName ++ ", line " ++ toString tb.lineNo

/-- The body of AllAboutDocumentsException.__init__ from
src/exception/custom_exception.py.  Its first statement unpacks
`original_exception.__traceback__` into three variables; the remaining
statements are transcribed below it. -/
def AllAboutDocumentsException_init (error_message : String)
    (original_exception : ExcArg) : Except PyExc AllAboutDocumentsExceptionObj := do
  let tbValue ← tracebackAttr original_exception
  let (_, _, exception_traceback) ← unpackThree tbValue
  match exception_traceback with
  | some tb =>
      .ok ⟨tb.fileName, some tb.lineNo, error_message, formatExceptionStr tb⟩
  | none =>
      .ok ⟨"N/A", none, error_message, "Traceback not available"⟩

/-- Evaluates the statement `raise AllAboutDocumentsException(msg, arg)`:
first the constructor runs; if constructing the exception object itself
raises, that error is what propagates to the caller instead. -/
def pyRaiseNew (msg : String) (arg : ExcArg) : PyExc :=
  match AllAboutDocumentsException_init msg arg with
  | .error e => e
  | .ok _ => ⟨.allAboutDocuments, msg, none⟩

/-- The ZeroDivisionError raised and caught by the self test at the bottom
of src/exception/custom_exception.py. -/
def selfTestZeroDivision : PyExc :=
  ⟨.zeroDivisionError, "division by zero", some ⟨"exception/custom_exception.py", 65⟩⟩

/-! ## Shared data model: uploads, PDF documents, effects, file system -/

/-- A PDF document as far as the embedded code observes it through PyMuPDF:
an encryption flag and the extracted text of each page, in page order. -/
structure PdfDoc where
  encrypted : Bool
  pages : List String
deriving DecidableEq

/-- An uploaded file-like object: a name and the PDF payload behind its
byte buffer. -/
structure UploadedFile where
  name : String
  content : PdfDoc
deriving DecidableEq

/-- The observable side effects of the embedded operations, in order. -/
inductive Effect where
  | fileWrite (path : String) (content : PdfDoc)
  | unlinkFile (path : String)
  | removeDir (path : String)
  | faissSave (path : String)
  | llmCall (prompt : String)
  | warnLog (msg : String)
deriving DecidableEq

/-- A file system mapping paths to stored PDF payloads. -/
def FileSys : Type := String → Option PdfDoc

/-- The empty file system. -/
def emptyFs : FileSys := fun _ => none

/-- Replaying the write effects of a trace onto a file system. -/
def applyWrites (fs : FileSys) : List Effect → FileSys
  | [] => fs
  | .fileWrite p d :: es => applyWrites (fun q => if q = p then some d else fs q) es
  | _ :: es => applyWrites fs es

/-- Python `sep.join(parts)`. -/
def pyJoin (sep : String) : List String → String
  | [] => ""
  | [s] => s
  | s :: t :: rest => s ++ sep ++ pyJoin sep (t :: rest)

/-- Python `s.endswith(suffix)`. -/
def pyEndsWith (s sfx : String) : Bool :=
  sfx.toList.isSuffixOf s.toList

/-- Python `s.lower()`. -/
def pyLower (s : String) : String :=
  String.mk (s.toList.map Char.toLower)

/-- Python truthiness of `s.strip()`: false exactly when every character of
s is whitespace. -/
def pyStripNonEmpty (s : String) : Bool :=
  ¬ s.toList.all fun c => c.isWhitespace

/-- The characters after the last posix separator. -/
def takeAfterLastSlash (l : List Char) : List Char :=
  (l.reverse.takeWhile fun c => ¬ (c = '/')).reverse

/-- `os.path.basename` on the posix separator, as used on upload names. -/
def os_path_basename (name : String) : String :=
  String.mk (takeAfterLastSlash name.toList)

/-! ## src/src/document_comparator/data_ingestion.py (DocumentIngestion) -/

/-- Path of a file stored inside a session directory. -/
def sessionFilePath (session_path : String) (name : String) : String :=
  session_path ++ "/" ++ name

/-- DocumentIngestion.save_uploaded_files: both names must end in ".pdf"
(checked before any write); the files are then written to the session
directory under their original names.  The ValueError raised on a bad
extension is caught and re-raised through the wrapping constructor. -/
def save_uploaded_files (session_path : String)
    (first_document second_document : UploadedFile) :
    Except PyExc (String × String) × List Effect :=
  if ¬ pyEndsWith first_document.name ".pdf" ∨ ¬ pyEndsWith second_document.name ".pdf" then
    (.error (pyRaiseNew "Error while saving uploaded PDF files."
        (.exc ⟨.valueError, "Only PDF files are supported.",
          some ⟨"src/document_comparator/data_ingestion.py", 69⟩⟩)), [])
  else
    let first_document_path := sessionFilePath session_path first_document.name
    let second_document_path := sessionFilePath session_path second_document.name
    (.ok (first_document_path, second_document_path),
      [.fileWrite first_document_path first_document.content,
       .fileWrite second_document_path second_document.content])

/-- The page marker format of DocumentIngestion.read_document. -/
def comparatorPageMarker (n : Nat) : String :=
  "\n---- Page " ++ toString n ++ " ----\n"

/-- DocumentIngestion.read_document: rejects encrypted documents, then
collects a marker-prefixed extract for each page whose text is non-blank
after stripping, and joins the extracts with a newline. -/
def read_document (doc : PdfDoc) : Except PyExc String :=
  if doc.encrypted then
    .error (pyRaiseNew "Error while reading the PDF file."
      (.exc ⟨.valueError, "The document is encrypted and cannot be read.",
        some ⟨"src/document_comparator/data_ingestion.py", 108⟩⟩))
  else
    .ok (pyJoin "\n" (doc.pages.enum.filterMap fun p =>
      if pyStripNonEmpty p.2 then some (comparatorPageMarker (p.1 + 1) ++ p.2)
      else none))

/-- A session directory under the comparator base directory: its name, its
modification time and the plain files inside it. -/
structure SessionDir where
  name : String
  mtime : Nat
  files : List String
deriving DecidableEq

/-- The sort key relation of delete_old_sessions: most recently modified
first.  Python sorted is stable, and a stable descending sort is uniquely
determined, so Mathlib insertionSort over this relation reproduces it. -/
def mtimeGE (a b : SessionDir) : Prop := b.mtime ≤ a.mtime

instance : DecidableRel mtimeGE := fun a b => Nat.decLe b.mtime a.mtime

instance : IsTotal SessionDir mtimeGE :=
  ⟨fun a b => le_total b.mtime a.mtime⟩

instance : IsTrans SessionDir mtimeGE :=
  ⟨fun _ _ _ hab hbc => le_trans hbc hab⟩

/-- DocumentIngestion.delete_old_sessions: sorts the session directories by
modification time, newest first, keeps the first max_retained_logs of them
and removes every other directory after unlinking each of its files.
Returns the surviving directories and the removal effects. -/
def delete_old_sessions (dirs : List SessionDir) (max_retained_logs : Nat) :
    List SessionDir × List Effect :=
  let session_folders := List.insertionSort mtimeGE dirs
  (session_folders.take max_retained_logs,
    (session_folders.drop max_retained_logs).flatMap fun folder =>
      (folder.files.map fun f => Effect.unlinkFile (folder.name ++ "/" ++ f)) ++
        [Effect.removeDir folder.name])

/-! ## src/src/document_analyzer/data_ingestion.py (DocumentHandler) -/

/-- DocumentHandler.save_pdf: validates (case-insensitively) that the name
ends in ".pdf" before writing the file under its basename in the session
directory.  The validation raise passes a single argument to the wrapping
constructor, which needs two, so a TypeError is what the except block
actually catches and rewraps. -/
def save_pdf (session_directory : String) (file_to_be_analyzed : UploadedFile) :
    Except PyExc String × List Effect :=
  if ¬ pyEndsWith (pyLower file_to_be_analyzed.name) ".pdf" then
    (.error (pyRaiseNew "Failed to save PDF file."
        (.exc ⟨.typeError,
          "AllAboutDocumentsException.__init__ missing 1 required positional argument",
          some ⟨"src/document_analyzer/data_ingestion.py", 107⟩⟩)), [])
  else
    let the_pdf_is_saved_here :=
      session_directory ++ "/" ++ os_path_basename file_to_be_analyzed.name
    (.ok the_pdf_is_saved_here,
      [.fileWrite the_pdf_is_saved_here file_to_be_analyzed.content])

/-- The page marker format of DocumentHandler.read_pdf. -/
def analyzerPageMarker (n : Nat) : String :=
  "\n--- Page " ++ toString n ++ " ---\n"

/-- DocumentHandler.read_pdf: collects a marker-prefixed extract for every
page (enumerate starts at 1, no blank-page filtering, no encryption check)
and joins the extracts with a period and newline. -/
def read_pdf (doc : PdfDoc) : Except PyExc String :=
  .ok (pyJoin ".\n" (doc.pages.enum.map fun p =>
    analyzerPageMarker (p.1 + 1) ++ p.2))

/-! ## src/src/chat_with_a_document/data_ingestion.py (SingleDocumentIngestor) -/

/-- `pathlib.Path(name).suffix`: the extension of the final path component,
empty when there is no dot, the dot is the first character of the component
or the dot is its last character. -/
def path_suffix (name : String) : String :=
  let cs := takeAfterLastSlash name.toList
  match ((cs.enum.filter fun p => p.2 = '.').map Prod.fst).getLast? with
  | some i => if 0 < i ∧ i < cs.length - 1 then String.mk (cs.drop i) else ""
  | none => ""

/-- The saved-file name built inside SingleDocumentIngestor.ingest_files:
UTC timestamp, an underscore, six random hex characters, and the original
extension. -/
def unique_filename (timestamp uuidHex6 original_name : String) : String :=
  timestamp ++ "_" ++ uuidHex6 ++ path_suffix original_name

/-- The nondeterministic inputs of the save loop: the UTC timestamp string
and the six-character uuid4 prefix observed for the i-th uploaded file. -/
structure UploadCtx where
  timestamp : Nat → String
  uuidHex6 : Nat → String

/-- The argument passed to ingest_files: either an actual Python list of
file-like objects, or any non-list value. -/
inductive PyArg where
  | ofList (files : List UploadedFile)
  | notAList

/-- The behavior of the external PyPDFLoader on a stored payload: the page
documents it yields, or the exception it raises. -/
def PdfLoad : Type := PdfDoc → Except PyExc (List String)

/-- The configuration of the RecursiveCharacterTextSplitter constructed in
SingleDocumentIngestor._create_retriever. -/
structure SplitterCfg where
  chunk_size : Nat
  chunk_overlap : Nat
deriving DecidableEq

/-- The splitter configuration literally written in _create_retriever. -/
def createRetrieverSplitter : SplitterCfg := ⟨1000, 300⟩

/-- Modelled from the spec: the text splitter itself is the external
RecursiveCharacterTextSplitter library class, not code of this repository;
the spec describes it as a sliding window over the text with fixed chunk
size 1000 and overlap 300, hence a step of 700.  Fuel-based recursion so
the definition computes structurally; the fuel argument is always given as
at least the text length plus one. -/
def swChunksFuel : Nat → List Char → List (List Char)
  | 0, _ => []
  | fuel + 1, t =>
      if t.length ≤ 1000 then (if t.isEmpty then [] else [t])
      else t.take 1000 :: swChunksFuel fuel (t.drop 700)

/-- Modelled from the spec: the chunks the sliding-window splitter produces
on a text. -/
def slidingWindowChunks (t : List Char) : List (List Char) :=
  swChunksFuel (t.length + 1) t

/-- SingleDocumentIngestor._create_retriever: splits the page documents
into chunks, loads the embedding model, builds the FAISS index and saves it
to the faiss directory, returning a similarity retriever over the chunks
with k equal to 5. -/
structure Retriever where
  chunks : List (List Char)
  k : Nat

/-- See _create_retriever; the chunking applies the splitter to each page
document, and the index write is the faissSave effect. -/
def create_retriever (faiss_dir : String) (documents : List String) :
    Except PyExc Retriever × List Effect :=
  (.ok ⟨documents.flatMap fun d => slidingWindowChunks d.toList, 5⟩,
    [.faissSave faiss_dir])

/-- The save loop inside the try block of ingest_files: for the i-th file,
write it under its unique name in the data directory, then load its pages
with PyPDFLoader; a loader failure aborts the loop but the writes already
made stay. -/
def ingestLoop (data_dir : String) (ctx : UploadCtx) (loader : PdfLoad) :
    Nat → List UploadedFile → Except PyExc (List String) × List Effect
  | _, [] => (.ok [], [])
  | i, uploaded_file :: rest =>
      let temp_path := data_dir ++ "/" ++
        unique_filename (ctx.timestamp i) (ctx.uuidHex6 i) uploaded_file.name
      let w := Effect.fileWrite temp_path uploaded_file.content
      match loader uploaded_file.content with
      | .error e => (.error e, [w])
      | .ok docs =>
          match ingestLoop data_dir ctx loader (i + 1) rest with
          | (.ok more, es) => (.ok (docs ++ more), w :: es)
          | (.error e, es) => (.error e, w :: es)

/-- SingleDocumentIngestor.ingest_files: a non-list argument raises a plain
ValueError before the try block; for a list, every file is saved and loaded
(no extension validation), then the retriever is built; any failure inside
the try block is re-raised through the wrapping constructor with `sys` as
its second argument. -/
def ingest_files (data_dir : String) (ctx : UploadCtx) (loader : PdfLoad)
    (faiss_dir : String) : PyArg → Except PyExc Retriever × List Effect
  | .notAList =>
      (.error ⟨.valueError, "uploaded_files must be a list of file-like objects.", none⟩,
        [])
  | .ofList uploaded_files =>
      match ingestLoop data_dir ctx loader 0 uploaded_files with
      | (.error _, es) =>
          (.error (pyRaiseNew "Failed to ingest document(s)." .sysModule), es)
      | (.ok documents, es) =>
          match create_retriever faiss_dir documents with
          | (.ok r, es2) => (.ok r, es ++ es2)
          | (.error _, es2) =>
              (.error (pyRaiseNew "Error while creating FAISS retriever." .sysModule),
                es ++ es2)

/-! ## src/utils/model_loader.py (ModelLoader) -/

/-- The process environment: each variable name maps to its value, or to
none when the variable is unset. -/
def Env : Type := String → Option String

/-- Python truthiness test `not api_value` on an environment lookup: true
for an unset variable and for the empty string. -/
def pyFalsy : Option String → Bool
  | none => true
  | some s => s = ""

/-- The mandatory credential variables listed in
ModelLoader._validate_environment_variables. -/
def mandatory_api_keys : List String := ["GOOGLE_API_KEY", "GROQ_API_KEY"]

/-- ModelLoader._validate_environment_variables: reads every mandatory key,
collects the ones whose value is missing or empty, and raises through the
wrapping constructor (passing the `sys` module) when any is missing. -/
def validate_environment_variables (env : Env) :
    Except PyExc (List (String × Option String)) :=
  let api_keys := mandatory_api_keys.map fun k => (k, env k)
  let missing := (api_keys.filter fun kv => pyFalsy kv.2).map Prod.fst
  if missing.isEmpty then .ok api_keys
  else .error (pyRaiseNew "Missing environment variables: " .sysModule)

/-- The configuration data returned by load_config_yaml; its contents are
only consulted later, by load_llm and load_embeddings. -/
structure ConfigData where
  embedding_model_name : String
deriving DecidableEq

/-- The state a successfully constructed ModelLoader holds. -/
structure ModelLoaderState where
  api_keys : List (String × Option String)
  config : ConfigData

/-- ModelLoader.__init__: loads the .env file (modelled as already merged
into env), validates the mandatory variables, then loads the configuration
file.  No LLM client and no embedding client is constructed here and no
network effect is performed. -/
def ModelLoader_init (env : Env) (config : ConfigData) :
    Except PyExc ModelLoaderState × List Effect :=
  match validate_environment_variables env with
  | .error e => (.error e, [])
  | .ok api_keys => (.ok ⟨api_keys, config⟩, [])

/-! ## LLM chains: metadata analysis and document comparison -/

/-- A deterministic model of one chat-completion call: prompt in, text
out.  Both structured-output operations drive all their calls through such
a function. -/
def LlmOracle : Type := String → String

/-- A JsonOutputParser over a pydantic schema: the parse function and the
format instructions it advertises. -/
structure JsonOutputParserModel (α : Type) where
  parse : String → Except String α
  format_instructions : String

/-- The prompt template prompt_to_analyze_document_metadata with its two
placeholders substituted. -/
def analyzeMetadataPrompt (format_instructions document_text : String) : String :=
  "\nYou are a highly capable assistant trained to analyze and summarize documents.\nReturn ONLY valid JSON matching the exact schema below.\n\n"
    ++ format_instructions ++ "\n\nAnalyze this document:\n" ++ document_text ++ "\n"

/-- The prompt template prompt_to_compare_documents with its two
placeholders substituted. -/
def compareDocumentsPrompt (combined_docs format_instruction : String) : String :=
  "\nYou will be provided with content from two documents. Your tasks are as follows:\n\n1. Compare the content in both documents.\n2. Identify the difference in content and note down the page numbers.\n3. The output you provide should be page-wise comparison content.\n4. If any page content is not changed, mention as No Change.\n\nInput documents:\n\n"
    ++ combined_docs ++ "\n\nYour response should follow the below format:\n\n"
    ++ format_instruction ++ "\n"

/-- Modelled from the spec: the retry prompt of the external
OutputFixingParser, carrying the schema instructions and the malformed
completion back to the model. -/
def fixingRetryPrompt (instructions completion errorMsg : String) : String :=
  "Instructions:\n--------------\n" ++ instructions ++
    "\n--------------\nCompletion:\n--------------\n" ++ completion ++
    "\n--------------\n\nAbove, the Completion did not satisfy the constraints given in the Instructions.\nError:\n--------------\n"
    ++ errorMsg ++
    "\n--------------\n\nPlease try again. Please only respond with an answer that satisfies the constraints laid out in the Instructions:"

/-- Modelled from the spec: the external OutputFixingParser wrapped around
a parser in DocumentMetadataAnalyzer.__init__; on a parse failure it
re-invokes the LLM once with the retry prompt and parses the new
completion. -/
def fixing_parser_parse {α : Type} (llm : LlmOracle)
    (parser : JsonOutputParserModel α) (completion : String) :
    Except String α × List Effect :=
  match parser.parse completion with
  | .ok a => (.ok a, [])
  | .error err =>
      let retry := fixingRetryPrompt parser.format_instructions completion err
      (parser.parse (llm retry), [.llmCall retry])

/-- DocumentMetadataAnalyzer.analyze_document: the chain prompt, then the
LLM, then the fixing parser; a remaining parse failure is re-raised through
the wrapping constructor with the parser error as its cause. -/
def analyze_document {α : Type} (llm : LlmOracle)
    (parser : JsonOutputParserModel α) (document_text : String) :
    Except PyExc α × List Effect :=
  let prompt := analyzeMetadataPrompt parser.format_instructions document_text
  let completion := llm prompt
  match fixing_parser_parse llm parser completion with
  | (.ok response, es) => (.ok response, Effect.llmCall prompt :: es)
  | (.error err, es) =>
      (.error (pyRaiseNew "Failed to initialize Document Handler"
          (.exc ⟨.outputParserError, err,
            some ⟨"src/document_analyzer/document_metadata_analysis.py", 66⟩⟩)),
        Effect.llmCall prompt :: es)

/-- DocumentComparatorUsingLLM.compare_documents: the chain is the prompt,
then the LLM, then the plain parser; the OutputFixingParser in this module
is commented out, so a parse failure is immediately re-raised through the
wrapping constructor, with no repair call. -/
def compare_documents {α : Type} (llm : LlmOracle)
    (parser : JsonOutputParserModel α) (combined_docs : String) :
    Except PyExc α × List Effect :=
  let prompt := compareDocumentsPrompt combined_docs parser.format_instructions
  let completion := llm prompt
  match parser.parse completion with
  | .ok response => (.ok response, [.llmCall prompt])
  | .error err =>
      (.error (pyRaiseNew "Failed to compare documents using LLM."
          (.exc ⟨.outputParserError, err,
            some ⟨"src/document_comparator/document_comparison.py", 75⟩⟩)),
        [.llmCall prompt])

/-! ## src/src/chat_with_a_document/data_retrieval.py (ConversationalRAG) -/

/-- The value the wrapped RAG chain returns on success: the answer field of
the response dictionary, which may be absent. -/
structure ChainResponse where
  answer : Option String

/-- The behavior of the underlying retrieval chain on one user input. -/
def RagChain : Type := String → Except PyExc ChainResponse

/-- ConversationalRAG.invoke: runs the chain, takes the answer field with
the fixed fallback string for a missing field, logs a warning only when the
resulting answer is falsy (the empty string), and returns it; a chain
failure is re-raised through the wrapping constructor with `sys` as its
second argument. -/
def ConversationalRAG_invoke (chain : RagChain) (user_input : String) :
    Except PyExc String × List Effect :=
  match chain user_input with
  | .error _ =>
      (.error (pyRaiseNew "Failed to invoke ConversationalRAG chain." .sysModule), [])
  | .ok response =>
      let answer := response.answer.getD "no_answer"
      (.ok answer,
        if answer = "" then [.warnLog "No answer returned from the model."] else [])

/-! ## Helper notions used by the statements -/

/-- The exception class of a computation that failed, none on success. -/
def errKind {α : Type} : Except PyExc α → Option PyExcKind
  | .error e => some e.kind
  | .ok _ => none

/-- Whether a computation succeeded. -/
def isOkE {ε α : Type} : Except ε α → Bool
  | .ok _ => true
  | .error _ => false

/-- The success value of a computation, with a default for failures. -/
def okValue {α : Type} (dflt : α) : Except PyExc α → α
  | .ok a => a
  | .error _ => dflt

/-- The string x occurs contiguously inside s. -/
def strContains (s x : String) : Prop :=
  ∃ pre post, s = pre ++ x ++ post

/-- An element of the joined list occurs contiguously in the joined string. -/
theorem pyJoin_contains (sep : String) (l : List String) (x : String)
    (hx : x ∈ l) : strContains (pyJoin sep l) x := by
  induction l with
  | nil => cases hx
  | cons s rest ih =>
    cases rest with
    | nil =>
      rcases List.mem_singleton.mp hx with rfl
      exact ⟨"", "", by simp [pyJoin, String.append_empty, String.empty_append]⟩
    | cons t r =>
      rcases List.mem_cons.mp hx with rfl | hx2
      · exact ⟨"", sep ++ pyJoin sep (t :: r),
          by simp [pyJoin, String.empty_append, String.append_assoc]⟩
      · obtain ⟨p, q, hpq⟩ := ih hx2
        exact ⟨s ++ sep ++ p, q, by simp [pyJoin, hpq, String.append_assoc]⟩

/-- A string with a contiguous non-empty piece is itself non-empty. -/
theorem strContains_ne_empty {s x : String} (h : strContains s x)
    (hx : x.length ≠ 0) : s ≠ "" := by
  obtain ⟨p, q, rfl⟩ := h
  intro he
  have hlen := congrArg String.length he
  rw [String.length_append, String.length_append, String.length_empty] at hlen
  omega

/-! ## C1: the wrapping exception constructor -/

/-- C1: the claim states that every caught error is wrapped into
AllAboutDocumentsException carrying cause, file and line, that the wrapped
exception is re-raised, and in particular that the wrapping constructor
succeeds for every original exception.  In the code the constructor first
unpacks original_exception.__traceback__, a single traceback object or
None, into three variables, so it raises TypeError on every argument and
never builds the wrapped exception; the intended behavior is visible in
the commented-out sys.exc_info() line and in the module self test, which
this theorem also evaluates. -/
theorem allAboutDocumentsException_init_always_raises :
    (∀ (msg : String) (arg : ExcArg),
      isOkE (AllAboutDocumentsException_init msg arg) = false) ∧
    AllAboutDocumentsException_init "Test exception during development"
        (.exc selfTestZeroDivision) =
      .error ⟨.typeError, "cannot unpack non-iterable traceback object", none⟩ := by
  constructor
  · intro msg arg
    cases arg with
    | exc e =>
      cases h : e.traceback with
      | none =>
        simp [AllAboutDocumentsException_init, tracebackAttr, unpackThree, h,
          isOkE, Except.bind, Bind.bind]
      | some tb =>
        simp [AllAboutDocumentsException_init, tracebackAttr, unpackThree, h,
          isOkE, Except.bind, Bind.bind]
    | sysModule =>
      simp [AllAboutDocumentsException_init, tracebackAttr, unpackThree,
        isOkE, Except.bind, Bind.bind]
  · rfl

/-! ## C7: missing credentials fail ModelLoader construction -/

/-- C7: if GOOGLE_API_KEY or GROQ_API_KEY is unset or empty, constructing a
ModelLoader fails during initialization, with an empty effect trace: no LLM
client, no embedding client and no network call happens (those only occur
later, in load_llm and load_embeddings). -/
theorem modelLoader_init_missing_key_fails (env : Env) (config : ConfigData)
    (h : pyFalsy (env "GOOGLE_API_KEY") = true ∨ pyFalsy (env "GROQ_API_KEY") = true) :
    isOkE (ModelLoader_init env config).1 = false ∧
    (ModelLoader_init env config).2 = [] := by
  cases hg : pyFalsy (env "GOOGLE_API_KEY") <;> cases hq : pyFalsy (env "GROQ_API_KEY")
  · rw [hg, hq] at h; simp at h
  all_goals
    simp [ModelLoader_init, validate_environment_variables, mandatory_api_keys,
      List.filter, hg, hq, isOkE]

/-- The environment with every variable unset. -/
def emptyEnv : Env := fun _ => none

/-- Witness for C7 at the empty environment. -/
theorem modelLoader_init_missing_key_fails_witness :
    isOkE (ModelLoader_init emptyEnv ⟨"models/embedding-001"⟩).1 = false ∧
    (ModelLoader_init emptyEnv ⟨"models/embedding-001"⟩).2 = [] :=
  modelLoader_init_missing_key_fails emptyEnv ⟨"models/embedding-001"⟩ (Or.inl rfl)

/-! ## C10: the non-list type check in ingest_files -/

/-- C10: a non-list argument makes ingest_files raise a plain ValueError,
before any file is saved or any other effect happens, and the error is not
the wrapped application exception; on the list path every failure is
re-raised through the wrapping constructor, which (being handed the `sys`
module) surfaces as an AttributeError, never as that ValueError. -/
theorem ingest_files_nonlist_plain_value_error :
    (∀ (dd : String) (ctx : UploadCtx) (loader : PdfLoad) (fd : String),
      ingest_files dd ctx loader fd .notAList =
        (.error ⟨.valueError, "uploaded_files must be a list of file-like objects.",
          none⟩, [])) ∧
    (∀ (dd : String) (ctx : UploadCtx) (loader : PdfLoad) (fd : String)
      (files : List UploadedFile),
      errKind (ingest_files dd ctx loader fd (.ofList files)).1 ≠
        some PyExcKind.valueError) := by
  refine ⟨fun dd ctx loader fd => rfl, fun dd ctx loader fd files => ?_⟩
  cases hres : ingestLoop dd ctx loader 0 files with
  | mk r es =>
    cases r with
    | error e =>
      simp [ingest_files, hres, errKind, pyRaiseNew, AllAboutDocumentsException_init,
        tracebackAttr, Except.bind, Bind.bind]
    | ok docs =>
      simp [ingest_files, hres, create_retriever, errKind]

/-! ## C9: invoke answer handling -/

/-- A chain whose response dictionary has no answer field. -/
def chainMissingAnswer : RagChain := fun _ => .ok ⟨none⟩

/-- Counterexample to C9 as stated: when the answer field is missing, the
call returns the fallback string with an empty effect trace, so no warning
at all is logged, although the claim says an empty or missing answer is
logged as a warning. -/
theorem invoke_missing_answer_logs_no_warning :
    ConversationalRAG_invoke chainMissingAnswer "What is this document about?" =
      (.ok "no_answer", []) := by
  rfl

/-- C9 amended: a successful invoke returns the answer field, with the
fixed fallback string when the field is missing; a warning is logged when
the answer value is the empty string, and only then, so a missing field
yields the fallback silently; a chain failure aborts the call with the
error produced by the wrapping re-raise. -/
theorem invoke_answer_handling (chain : RagChain) (user_input : String) :
    (∀ e, chain user_input = .error e →
      ConversationalRAG_invoke chain user_input =
        (.error (pyRaiseNew "Failed to invoke ConversationalRAG chain." .sysModule),
          [])) ∧
    (∀ a, chain user_input = .ok ⟨some a⟩ →
      (ConversationalRAG_invoke chain user_input).1 = .ok a ∧
      (Effect.warnLog "No answer returned from the model." ∈
          (ConversationalRAG_invoke chain user_input).2 ↔ a = "")) ∧
    (chain user_input = .ok ⟨none⟩ →
      ConversationalRAG_invoke chain user_input = (.ok "no_answer", [])) := by
  refine ⟨fun e he => ?_, fun a ha => ?_, fun hn => ?_⟩
  · simp [ConversationalRAG_invoke, he]
  · constructor
    · simp [ConversationalRAG_invoke, ha]
    · by_cases hae : a = "" <;> simp [ConversationalRAG_invoke, ha, hae]
  · simp [ConversationalRAG_invoke, hn]

/-- A chain whose response carries an empty answer string. -/
def chainEmptyAnswer : RagChain := fun _ => .ok ⟨some ""⟩

/-- Witness for the amended C9 at a chain returning an empty answer: the
empty answer is returned and the warning is logged. -/
theorem invoke_answer_handling_witness :
    (ConversationalRAG_invoke chainEmptyAnswer "question").1 = .ok "" ∧
    (Effect.warnLog "No answer returned from the model." ∈
        (ConversationalRAG_invoke chainEmptyAnswer "question").2 ↔ ("" : String) = "") :=
  (invoke_answer_handling chainEmptyAnswer "question").2.1 "" rfl

/-! ## C8: structured-output parsing and repair -/

/-- An LLM stub that always answers with unparseable text. -/
def llmStubOutput : LlmOracle := fun _ => "this is not a json object"

/-- A parser over the comparison schema that rejects every completion. -/
def alwaysFailingOutputParse : JsonOutputParserModel Unit :=
  ⟨fun _ => .error "Invalid json output", "schema instructions"⟩

/-- Counterexample to C8 as stated: on a document comparison whose output
fails schema parsing, the call fails after exactly one model call, with no
repair re-invocation; the claimed repair step exists only in the metadata
analyzer (in the comparator module the fixing parser is commented out). -/
theorem compare_documents_no_repair_on_parse_failure :
    isOkE (compare_documents llmStubOutput alwaysFailingOutputParse
        "Document one text and document two text").1 = false ∧
    (compare_documents llmStubOutput alwaysFailingOutputParse
        "Document one text and document two text").2 =
      [Effect.llmCall (compareDocumentsPrompt "Document one text and document two text"
        "schema instructions")] := by
  exact ⟨rfl, rfl⟩

/-- C8 amended: metadata analysis parses the first completion and, on
failure, performs exactly one repair call with the schema instructions and
the malformed completion, failing only if that second parse also fails;
document comparison performs exactly one model call and fails as soon as
its single parse fails, with no repair step. -/
theorem structured_output_repair_behavior {α : Type} (llm : LlmOracle)
    (parser : JsonOutputParserModel α) (document_text combined_docs : String) :
    ((compare_documents llm parser combined_docs).2 =
      [Effect.llmCall (compareDocumentsPrompt combined_docs parser.format_instructions)]) ∧
    (isOkE (compare_documents llm parser combined_docs).1 =
      isOkE (Except.mapError (fun e => (⟨.outputParserError, e, none⟩ : PyExc))
        (parser.parse (llm (compareDocumentsPrompt combined_docs parser.format_instructions))))) ∧
    (∀ a, parser.parse (llm (analyzeMetadataPrompt parser.format_instructions document_text)) = .ok a →
      analyze_document llm parser document_text =
        (.ok a, [Effect.llmCall (analyzeMetadataPrompt parser.format_instructions document_text)])) ∧
    (∀ err, parser.parse (llm (analyzeMetadataPrompt parser.format_instructions document_text)) = .error err →
      (analyze_document llm parser document_text).2 =
        [Effect.llmCall (analyzeMetadataPrompt parser.format_instructions document_text),
         Effect.llmCall (fixingRetryPrompt parser.format_instructions
           (llm (analyzeMetadataPrompt parser.format_instructions document_text)) err)] ∧
      (isOkE (analyze_document llm parser document_text).1 =
        isOkE (Except.mapError (fun e => (⟨.outputParserError, e, none⟩ : PyExc))
          (parser.parse (llm (fixingRetryPrompt parser.format_instructions
            (llm (analyzeMetadataPrompt parser.format_instructions document_text)) err)))))) := by
  refine ⟨?_, ?_, fun a ha => ?_, fun err herr => ?_⟩
  · cases hp : parser.parse (llm (compareDocumentsPrompt combined_docs parser.format_instructions)) <;>
      simp [compare_documents, hp]
  · cases hp : parser.parse (llm (compareDocumentsPrompt combined_docs parser.format_instructions)) <;>
      simp [compare_documents, hp, isOkE, Except.mapError]
  · simp [analyze_document, fixing_parser_parse, ha]
  · cases hp2 : parser.parse (llm (fixingRetryPrompt parser.format_instructions
        (llm (analyzeMetadataPrompt parser.format_instructions document_text)) err)) <;>
      simp [analyze_document, fixing_parser_parse, herr, hp2, isOkE, Except.mapError]

/-- Witness for the amended C8: with a parser that rejects everything, the
analysis path performs the first call and exactly one repair call, then
fails. -/
theorem structured_output_repair_behavior_witness :
    (analyze_document llmStubOutput alwaysFailingOutputParse "Some document text").2 =
      [Effect.llmCall (analyzeMetadataPrompt "schema instructions" "Some document text"),
       Effect.llmCall (fixingRetryPrompt "schema instructions"
         (llmStubOutput (analyzeMetadataPrompt "schema instructions" "Some document text"))
         "Invalid json output")] ∧
    (isOkE (analyze_document llmStubOutput alwaysFailingOutputParse "Some document text").1 =
      isOkE (Except.mapError (fun e => (⟨.outputParserError, e, none⟩ : PyExc))
        (alwaysFailingOutputParse.parse (llmStubOutput (fixingRetryPrompt "schema instructions"
          (llmStubOutput (analyzeMetadataPrompt "schema instructions" "Some document text"))
          "Invalid json output"))))) :=
  (structured_output_repair_behavior llmStubOutput alwaysFailingOutputParse
    "Some document text" "unused").2.2.2 "Invalid json output" rfl

/-! ## C2: extension validation before writes -/

/-- A PyPDFLoader behavior that succeeds on every stored payload, yielding
its pages. -/
def alwaysOkPdfLoad : PdfLoad := fun d => .ok d.pages

/-- The save loop under a succeeding loader writes every file, in order,
under its unique name, and collects all pages. -/
theorem ingestLoop_ok_trace (dd : String) (ctx : UploadCtx) :
    ∀ (files : List UploadedFile) (i : Nat),
      ingestLoop dd ctx alwaysOkPdfLoad i files =
        (.ok (files.flatMap fun f => f.content.pages),
          (files.enumFrom i).map fun p =>
            Effect.fileWrite
              (dd ++ "/" ++ unique_filename (ctx.timestamp p.1) (ctx.uuidHex6 p.1) p.2.name)
              p.2.content) := by
  intro files
  induction files with
  | nil => intro i; rfl
  | cons f rest ih =>
    intro i
    simp [ingestLoop, alwaysOkPdfLoad, ih (i + 1), List.enumFrom]

/-- A non-PDF upload as the argument of single-document ingestion. -/
def plainTextUpload : UploadedFile := ⟨"notes.txt", ⟨false, ["plain text content"]⟩⟩

/-- A fixed draw of the nondeterministic timestamp and uuid inputs. -/
def uploadCtx0 : UploadCtx := ⟨fun _ => "20250101T000000000000Z", fun _ => "a1b2c3"⟩

/-- The PyPDFLoader behavior on a file that is not a PDF: it raises. -/
def failingPdfLoad : PdfLoad := fun _ => .error ⟨.runtimeError, "Could not parse file as PDF", none⟩

/-- Counterexample to C2 as stated: single-document ingestion accepts a
file named notes.txt without any extension validation and writes its bytes
to disk (first effect of the call), even though the name does not end in
.pdf; the later loader failure happens only after the write. -/
theorem ingest_files_writes_non_pdf_upload :
    pyEndsWith plainTextUpload.name ".pdf" = false ∧
    (ingest_files "data/chat_with_a_document" uploadCtx0 failingPdfLoad "faiss_index"
        (.ofList [plainTextUpload])).2 =
      [Effect.fileWrite "data/chat_with_a_document/20250101T000000000000Z_a1b2c3.txt"
        plainTextUpload.content] := by
  exact ⟨rfl, rfl⟩

/-- C2 amended: the analyzer save_pdf rejects a name whose lowercase form
does not end in .pdf, and the comparator save_uploaded_files rejects a pair
where either name does not end in .pdf, both before any write; the
single-document ingest_files performs no extension validation at all and
writes every file of the list whatever its name. -/
theorem upload_extension_validation (sd sp dd fd : String) (ctx : UploadCtx)
    (f d1 d2 : UploadedFile) :
    (pyEndsWith (pyLower f.name) ".pdf" = false →
      isOkE (save_pdf sd f).1 = false ∧ (save_pdf sd f).2 = []) ∧
    ((pyEndsWith d1.name ".pdf" = false ∨ pyEndsWith d2.name ".pdf" = false) →
      isOkE (save_uploaded_files sp d1 d2).1 = false ∧
      (save_uploaded_files sp d1 d2).2 = []) ∧
    (∀ files : List UploadedFile,
      (ingest_files dd ctx alwaysOkPdfLoad fd (.ofList files)).2 =
        ((files.enumFrom 0).map fun p =>
          Effect.fileWrite
            (dd ++ "/" ++ unique_filename (ctx.timestamp p.1) (ctx.uuidHex6 p.1) p.2.name)
            p.2.content) ++ [Effect.faissSave fd]) := by
  refine ⟨fun hf => ?_, fun hd => ?_, fun files => ?_⟩
  · simp [save_pdf, hf, isOkE]
  · rcases hd with hd | hd <;> simp [save_uploaded_files, hd, isOkE]
  · simp [ingest_files, ingestLoop_ok_trace dd ctx files 0, create_retriever]

/-- Witness for the amended C2 at a text upload rejected by the analyzer. -/
theorem upload_extension_validation_witness :
    isOkE (save_pdf "data/document_analyzer/s1" plainTextUpload).1 = false ∧
    (save_pdf "data/document_analyzer/s1" plainTextUpload).2 = [] :=
  (upload_extension_validation "data/document_analyzer/s1" "sp" "dd" "fd" uploadCtx0
    plainTextUpload plainTextUpload plainTextUpload).1 rfl

/-! ## C6: saved names and collision behavior -/

/-- The payload of a first upload. -/
def pdfPayloadA : PdfDoc := ⟨false, ["first upload content"]⟩

/-- The payload of a second upload with the same original name. -/
def pdfPayloadB : PdfDoc := ⟨false, ["second upload content"]⟩

/-- Counterexample to C6 as stated: the comparator saves accepted uploads
under their original names, with no timestamp and no random suffix, so two
uploads with the same original name are written to the same path and the
second write overwrites the first payload. -/
theorem comparator_same_name_uploads_collide :
    (save_uploaded_files "data/document_comparator/sess1"
        ⟨"report.pdf", pdfPayloadA⟩ ⟨"report.pdf", pdfPayloadB⟩).1 =
      .ok ("data/document_comparator/sess1/report.pdf",
        "data/document_comparator/sess1/report.pdf") ∧
    applyWrites emptyFs (save_uploaded_files "data/document_comparator/sess1"
        ⟨"report.pdf", pdfPayloadA⟩ ⟨"report.pdf", pdfPayloadB⟩).2
      "data/document_comparator/sess1/report.pdf" = some pdfPayloadB := by
  exact ⟨rfl, rfl⟩

/-- C6 amended: only single-document ingestion builds its saved file name
from the observed timestamp, an underscore, the six random hex characters
and the original extension, and names built from draws that differ in
timestamp or randomness (of the fixed respective lengths) never collide;
the comparator and the analyzer save under the original (base)name inside
the session directory, so two same-named uploads of one session map to the
same path. -/
theorem saved_name_collision_behavior (sp sd : String) (d1 d2 f : UploadedFile)
    (ts1 ts2 u1 u2 n1 n2 : String) :
    (ts1.length = ts2.length → u1.length = u2.length → (ts1 ≠ ts2 ∨ u1 ≠ u2) →
      unique_filename ts1 u1 n1 ≠ unique_filename ts2 u2 n2) ∧
    (∀ p1 p2, (save_uploaded_files sp d1 d2).1 = .ok (p1, p2) →
      p1 = sessionFilePath sp d1.name ∧ p2 = sessionFilePath sp d2.name ∧
      (d1.name = d2.name → p1 = p2)) ∧
    (∀ p, (save_pdf sd f).1 = .ok p → p = sd ++ "/" ++ os_path_basename f.name) := by
  refine ⟨fun hts hu hne h => ?_, fun p1 p2 hp => ?_, fun p hp => ?_⟩
  · have hdata := congrArg String.data h
    simp only [unique_filename, String.data_append] at hdata
    have hlen : (ts1.data ++ "_".data ++ u1.data).length =
        (ts2.data ++ "_".data ++ u2.data).length := by
      simp only [List.length_append]
      have h1 : ts1.data.length = ts2.data.length := hts
      have h2 : u1.data.length = u2.data.length := hu
      omega
    have hfront := (List.append_inj hdata hlen).1
    have hlen2 : (ts1.data ++ "_".data).length = (ts2.data ++ "_".data).length := by
      simp only [List.length_append]
      have h1 : ts1.data.length = ts2.data.length := hts
      omega
    have hsplit := List.append_inj hfront hlen2
    have hts2 : ts1 = ts2 := by
      apply String.ext
      exact (List.append_inj hsplit.1 hts).1
    have hu2 : u1 = u2 := String.ext hsplit.2
    rcases hne with hne | hne
    · exact hne hts2
    · exact hne hu2
  · by_cases hc : ¬ pyEndsWith d1.name ".pdf" ∨ ¬ pyEndsWith d2.name ".pdf"
    · simp only [save_uploaded_files, if_pos hc] at hp
      simp at hp
    · simp only [save_uploaded_files, if_neg hc] at hp
      obtain ⟨rfl, rfl⟩ := Prod.mk.injEq .. ▸ (Except.ok.injEq .. ▸ hp)
      exact ⟨rfl, rfl, fun hn => by simp [sessionFilePath, hn]⟩
  · by_cases hc : ¬ pyEndsWith (pyLower f.name) ".pdf"
    · simp only [save_pdf, if_pos hc] at hp
      simp at hp
    · simp only [save_pdf, if_neg hc] at hp
      exact (Except.ok.injEq .. ▸ hp).symm

/-- Witness for the amended C6: two draws differing in the timestamp give
different saved names even for the same original name. -/
theorem saved_name_collision_behavior_witness :
    unique_filename "20250101T000000000000Z" "a1b2c3" "report.pdf" ≠
      unique_filename "20250101T000000000001Z" "a1b2c3" "report.pdf" :=
  (saved_name_collision_behavior "sp" "sd" plainTextUpload plainTextUpload
      plainTextUpload "20250101T000000000000Z" "20250101T000000000001Z" "a1b2c3" "a1b2c3"
      "report.pdf" "report.pdf").1 rfl rfl (Or.inl (by decide))

/-! ## C5: save then read, page markers -/

/-- A valid, non-encrypted single-page PDF whose page text is empty. -/
def blankPagePdf : PdfDoc := ⟨false, [""]⟩

/-- Counterexample to C5 as stated: a valid non-encrypted one-page PDF is
saved by the comparator, reads back exactly as uploaded, and read_document
returns the empty string: no page marker for its page and no text at all,
because read_document skips every page whose text is blank. -/
theorem saved_blank_page_pdf_reads_back_empty :
    blankPagePdf.encrypted = false ∧
    blankPagePdf.pages.length = 1 ∧
    (save_uploaded_files "data/document_comparator/s2"
        ⟨"blank.pdf", blankPagePdf⟩ ⟨"cover.pdf", pdfPayloadA⟩).1 =
      .ok ("data/document_comparator/s2/blank.pdf",
        "data/document_comparator/s2/cover.pdf") ∧
    applyWrites emptyFs (save_uploaded_files "data/document_comparator/s2"
        ⟨"blank.pdf", blankPagePdf⟩ ⟨"cover.pdf", pdfPayloadA⟩).2
      "data/document_comparator/s2/blank.pdf" = some blankPagePdf ∧
    read_document blankPagePdf = .ok "" := by
  exact ⟨rfl, rfl, rfl, rfl, rfl⟩

/-- C5 amended: a saved file reads back exactly as uploaded; the analyzer
read_pdf yields text containing one marker-prefixed extract for every page
(and non-empty text when the document has a page); the comparator
read_document succeeds on a non-encrypted document and its text contains a
marker-prefixed extract for each page whose text is non-blank after
stripping, while blank pages contribute no marker (so the text can be
empty, as the counterexample shows). -/
theorem save_read_page_markers (doc : PdfDoc) (sd : String) (fs : FileSys)
    (f : UploadedFile) (henc : doc.encrypted = false) (hf : f.content = doc) :
    (∀ p, (save_pdf sd f).1 = .ok p → applyWrites fs (save_pdf sd f).2 p = some doc) ∧
    (∀ i, i < doc.pages.length →
      strContains (okValue "" (read_pdf doc))
        (analyzerPageMarker (i + 1) ++ doc.pages.getD i "")) ∧
    (doc.pages ≠ [] → okValue "" (read_pdf doc) ≠ "") ∧
    isOkE (read_document doc) = true ∧
    (∀ i, i < doc.pages.length → pyStripNonEmpty (doc.pages.getD i "") = true →
      strContains (okValue "" (read_document doc))
        (comparatorPageMarker (i + 1) ++ doc.pages.getD i "")) := by
  have hmem : ∀ i, i < doc.pages.length → (i, doc.pages.getD i "") ∈ doc.pages.enum := by
    intro i hi
    have hgd : doc.pages.getD i "" = doc.pages[i] := List.getD_eq_getElem doc.pages "" hi
    rw [hgd]
    have hlen : i < doc.pages.enum.length := by simpa using hi
    have := List.getElem_enum doc.pages i (h := hlen)
    rw [← this]
    exact List.getElem_mem hlen
  refine ⟨fun p hp => ?_, fun i hi => ?_, fun hne => ?_, ?_, fun i hi hstrip => ?_⟩
  · by_cases hc : ¬ pyEndsWith (pyLower f.name) ".pdf"
    · simp only [save_pdf, if_pos hc] at hp
      simp at hp
    · have hcc : pyEndsWith (pyLower f.name) ".pdf" = true := by simpa using hc
      simp only [save_pdf, if_neg hc] at hp
      obtain rfl := (Except.ok.injEq .. ▸ hp)
      simp [save_pdf, hcc, applyWrites, hf]
  · have hx : analyzerPageMarker (i + 1) ++ doc.pages.getD i "" ∈
        doc.pages.enum.map fun p => analyzerPageMarker (p.1 + 1) ++ p.2 :=
      List.mem_map.mpr ⟨(i, doc.pages.getD i ""), hmem i hi, rfl⟩
    simpa [read_pdf, okValue] using pyJoin_contains ".\n" _ _ hx
  · have h0 : 0 < doc.pages.length := List.length_pos.mpr hne
    have hcon : strContains (okValue "" (read_pdf doc))
        (analyzerPageMarker (0 + 1) ++ doc.pages.getD 0 "") := by
      have hx : analyzerPageMarker (0 + 1) ++ doc.pages.getD 0 "" ∈
          doc.pages.enum.map fun p => analyzerPageMarker (p.1 + 1) ++ p.2 :=
        List.mem_map.mpr ⟨(0, doc.pages.getD 0 ""), hmem 0 h0, rfl⟩
      simpa [read_pdf, okValue] using pyJoin_contains ".\n" _ _ hx
    apply strContains_ne_empty hcon
    have hm : ("\n--- Page " : String).length = 10 := rfl
    simp only [analyzerPageMarker, String.length_append]
    omega
  · simp [read_document, henc, isOkE]
  · have hgd : doc.pages.getD i "" = doc.pages[i] := List.getD_eq_getElem doc.pages "" hi
    rw [hgd] at hstrip ⊢
    have hx : comparatorPageMarker (i + 1) ++ doc.pages[i] ∈
        doc.pages.enum.filterMap fun p =>
          if pyStripNonEmpty p.2 then some (comparatorPageMarker (p.1 + 1) ++ p.2)
          else none :=
      List.mem_filterMap.mpr ⟨(i, doc.pages[i]),
        by rw [← hgd]; exact hmem i hi, by simp [hstrip]⟩
    simpa [read_document, henc, okValue] using pyJoin_contains "\n" _ _ hx

/-- Witness for the amended C5 at a one-page document with non-blank text:
the comparator text contains the marker-prefixed first page. -/
theorem save_read_page_markers_witness :
    strContains (okValue "" (read_document ⟨false, ["Hello world"]⟩))
      (comparatorPageMarker (0 + 1) ++
        ((⟨false, ["Hello world"]⟩ : PdfDoc).pages.getD 0 "")) :=
  (save_read_page_markers ⟨false, ["Hello world"]⟩ "sd" emptyFs
      ⟨"hello.pdf", ⟨false, ["Hello world"]⟩⟩ rfl rfl).2.2.2.2 0 (by decide) (by decide)

/-! ## C3: chunker configuration and overlap -/

/-- Every chunk the sliding-window splitter produces has at most 1000
characters, whatever the fuel. -/
theorem swChunksFuel_length_le (fuel : Nat) :
    ∀ (t : List Char), ∀ c ∈ swChunksFuel fuel t, c.length ≤ 1000 := by
  induction fuel with
  | zero => intro t c hc; simp [swChunksFuel] at hc
  | succ f ih =>
    intro t c hc
    simp only [swChunksFuel] at hc
    by_cases h : t.length ≤ 1000
    · rw [if_pos h] at hc
      by_cases he : t.isEmpty
      · simp [he] at hc
      · rw [if_neg he] at hc
        rcases List.mem_singleton.mp hc with rfl
        exact h
    · rw [if_neg h] at hc
      rcases List.mem_cons.mp hc with rfl | hc2
      · simp [List.length_take]
      · exact ih _ c hc2

/-- Every chunk with a successor is full (1000 characters), its last 300
characters are exactly the first 300 characters of the next chunk, and that
shared run has length 300, whatever the fuel. -/
theorem swChunksFuel_adjacent_overlap (fuel : Nat) :
    ∀ (t : List Char) (i : Nat), i + 1 < (swChunksFuel fuel t).length →
      ((swChunksFuel fuel t).getD i []).length = 1000 ∧
      ((swChunksFuel fuel t).getD i []).drop 700 =
        ((swChunksFuel fuel t).getD (i + 1) []).take 300 ∧
      (((swChunksFuel fuel t).getD i []).drop 700).length = 300 := by
  induction fuel with
  | zero => intro t i hi; simp [swChunksFuel] at hi
  | succ f ih =>
    intro t i hi
    simp only [swChunksFuel] at hi ⊢
    by_cases h : t.length ≤ 1000
    · rw [if_pos h] at hi
      by_cases he : t.isEmpty
      · simp [he] at hi
      · rw [if_neg he] at hi
        simp at hi
    · rw [if_neg h] at hi ⊢
      push_neg at h
      cases i with
      | zero =>
        have hR : 0 < (swChunksFuel f (t.drop 700)).length := by
          simpa using hi
        have hfull : (t.take 1000).length = 1000 := by
          simp [List.length_take]
          omega
        refine ⟨by simpa using hfull, ?_, ?_⟩
        · simp only [List.getD_cons_zero, List.getD_cons_succ]
          have hhead : ((swChunksFuel f (t.drop 700)).getD 0 []).take 300 =
              (t.drop 700).take 300 := by
            cases f with
            | zero => simp [swChunksFuel] at hR
            | succ f2 =>
              simp only [swChunksFuel] at hR ⊢
              by_cases h2 : (t.drop 700).length ≤ 1000
              · rw [if_pos h2] at hR ⊢
                by_cases he2 : (t.drop 700).isEmpty
                · simp [he2] at hR
                · rw [if_neg he2] at hR ⊢
                  simp
              · rw [if_neg h2] at hR ⊢
                simp [List.take_take]
          rw [hhead]
          exact List.drop_take 1000 700 t
        · simp only [List.getD_cons_zero]
          rw [List.length_drop, hfull]
      | succ j =>
        simp only [List.getD_cons_succ]
        exact ih (t.drop 700) j (by simpa using hi)

/-- C3: the splitter built in _create_retriever is configured with chunk
size 1000 and overlap 300, and under the spec-modelled sliding-window
splitting every produced chunk has at most 1000 characters while every
chunk with a successor shares exactly its last 300 characters with the
first 300 characters of that successor. -/
theorem chunker_config_and_overlap :
    createRetrieverSplitter.chunk_size = 1000 ∧
    createRetrieverSplitter.chunk_overlap = 300 ∧
    (∀ t : List Char, ∀ c ∈ slidingWindowChunks t, c.length ≤ 1000) ∧
    (∀ (t : List Char) (i : Nat), i + 1 < (slidingWindowChunks t).length →
      ((slidingWindowChunks t).getD i []).drop 700 =
        ((slidingWindowChunks t).getD (i + 1) []).take 300 ∧
      (((slidingWindowChunks t).getD i []).drop 700).length = 300) :=
  ⟨rfl, rfl, fun t => swChunksFuel_length_le (t.length + 1) t,
    fun t i hi =>
      ⟨(swChunksFuel_adjacent_overlap (t.length + 1) t i hi).2.1,
       (swChunksFuel_adjacent_overlap (t.length + 1) t i hi).2.2⟩⟩

/-- A 1800-character text, giving three chunks. -/
def chunkerWitnessText : List Char := List.replicate 1800 'a'

/-- Unfolding step of the splitter on a text longer than the chunk size. -/
theorem swChunksFuel_step (f : Nat) (t : List Char) (h : ¬ t.length ≤ 1000) :
    swChunksFuel (f + 1) t = t.take 1000 :: swChunksFuel f (t.drop 700) := by
  simp only [swChunksFuel]
  rw [if_neg h]

/-- Unfolding step of the splitter on a non-empty text that fits in one
chunk. -/
theorem swChunksFuel_last (f : Nat) (t : List Char) (h : t.length ≤ 1000)
    (hne : ¬ t.isEmpty = true) :
    swChunksFuel (f + 1) t = [t] := by
  simp only [swChunksFuel]
  rw [if_pos h, if_neg hne]

/-- The 1800-character text splits into two full chunks and a 400-character
tail. -/
theorem chunkerWitnessText_chunks :
    slidingWindowChunks chunkerWitnessText =
      [List.replicate 1000 'a', List.replicate 1000 'a', List.replicate 400 'a'] := by
  unfold slidingWindowChunks chunkerWitnessText
  rw [List.length_replicate]
  rw [swChunksFuel_step 1800 _ (by rw [List.length_replicate]; omega)]
  rw [List.take_replicate, List.drop_replicate]
  norm_num
  rw [show (1800 : Nat) = 1799 + 1 from rfl]
  rw [swChunksFuel_step 1799 _ (by rw [List.length_replicate]; omega)]
  rw [List.take_replicate, List.drop_replicate]
  norm_num
  rw [show (1799 : Nat) = 1798 + 1 from rfl]
  rw [swChunksFuel_last 1798 _ (by rw [List.length_replicate]; omega) (by decide)]

/-- Witness for C3 at the 1800-character text: the first and second chunks
share a 300-character run. -/
theorem chunker_config_and_overlap_witness :
    ((slidingWindowChunks chunkerWitnessText).getD 0 []).drop 700 =
      ((slidingWindowChunks chunkerWitnessText).getD 1 []).take 300 ∧
    (((slidingWindowChunks chunkerWitnessText).getD 0 []).drop 700).length = 300 :=
  chunker_config_and_overlap.2.2.2 chunkerWitnessText 0
    (by rw [chunkerWitnessText_chunks]; norm_num)

/-! ## C4: retention of session directories -/

/-- In a list sorted newest first with pairwise distinct modification
times, membership in the first n entries is equivalent to having fewer than
n entries strictly more recent. -/
theorem sorted_take_mem_iff (l : List SessionDir) (hs : List.Sorted mtimeGE l)
    (hd : List.Pairwise (fun a b => a.mtime ≠ b.mtime) l) :
    ∀ d ∈ l, ∀ n : Nat,
      d ∈ l.take n ↔ (l.countP fun e => decide (d.mtime < e.mtime)) < n := by
  induction l with
  | nil => intro d hdl; cases hdl
  | cons x l ih =>
    intro d hdl n
    cases n with
    | zero => simp
    | succ m =>
      rw [List.take_succ_cons]
      by_cases hdx : d = x
      · subst hdx
        have hcount : List.countP (fun e => decide (d.mtime < e.mtime)) (d :: l) = 0 := by
          rw [List.countP_eq_zero]
          intro a ha
          rcases List.mem_cons.mp ha with rfl | ha2
          · simp
          · have hle := (List.sorted_cons.mp hs).1 a ha2
            simp only [mtimeGE] at hle
            simp
            omega
        rw [hcount]
        simp
      · have hdl2 : d ∈ l := by
          rcases List.mem_cons.mp hdl with rfl | h2
          · exact absurd rfl hdx
          · exact h2
        have hxgt : d.mtime < x.mtime := by
          have hle : mtimeGE x d := (List.sorted_cons.mp hs).1 d hdl2
          have hne : x.mtime ≠ d.mtime := (List.pairwise_cons.mp hd).1 d hdl2
          simp only [mtimeGE] at hle
          omega
        rw [List.countP_cons]
        have hih := ih (List.sorted_cons.mp hs).2 (List.pairwise_cons.mp hd).2 d hdl2 m
        have hpx : decide (d.mtime < x.mtime) = true := by simpa using hxgt
        rw [hpx, if_pos rfl, List.mem_cons]
        constructor
        · rintro (rfl | hmem)
          · exact absurd rfl hdx
          · have := hih.mp hmem
            omega
        · intro hlt
          right
          exact hih.mpr (by omega)

/-- Counterexample to C4 as stated: with max_retained equal to 0 the call
removes every session directory, including the most recently modified one,
so the never-deletes-the-most-recent conjunct fails. -/
theorem delete_old_sessions_zero_removes_most_recent :
    (delete_old_sessions [⟨"20250101T000000000000Z_aaaaaa", 100, ["doc.pdf"]⟩] 0).1 = [] ∧
    (delete_old_sessions [⟨"20250101T000000000000Z_aaaaaa", 100, ["doc.pdf"]⟩] 0).2 =
      [Effect.unlinkFile "20250101T000000000000Z_aaaaaa/doc.pdf",
        Effect.removeDir "20250101T000000000000Z_aaaaaa"] := by
  exact ⟨rfl, rfl⟩

/-- C4 amended: for directories with pairwise distinct modification times,
delete_old_sessions keeps exactly those with fewer than max_retained
strictly more recent directories (hence all of them when at most
max_retained exist), removes every other directory after unlinking each of
its files, and, provided max_retained is at least 1, never removes the
strictly most recently modified directory. -/
theorem delete_old_sessions_retention (dirs : List SessionDir) (n : Nat)
    (hd : List.Pairwise (fun a b => a.mtime ≠ b.mtime) dirs) :
    (∀ d ∈ dirs, (d ∈ (delete_old_sessions dirs n).1 ↔
        (dirs.countP fun e => decide (d.mtime < e.mtime)) < n)) ∧
    (∀ d ∈ dirs, d ∉ (delete_old_sessions dirs n).1 →
      Effect.removeDir d.name ∈ (delete_old_sessions dirs n).2 ∧
      ∀ f ∈ d.files,
        Effect.unlinkFile (d.name ++ "/" ++ f) ∈ (delete_old_sessions dirs n).2) ∧
    (∀ d ∈ (delete_old_sessions dirs n).1, d ∈ dirs) ∧
    (dirs.length ≤ n → ∀ d ∈ dirs, d ∈ (delete_old_sessions dirs n).1) ∧
    (1 ≤ n → ∀ d ∈ dirs, (∀ e ∈ dirs, e ≠ d → e.mtime < d.mtime) →
      d ∈ (delete_old_sessions dirs n).1) := by
  have hperm : List.Perm (List.insertionSort mtimeGE dirs) dirs :=
    List.perm_insertionSort mtimeGE dirs
  have hs : List.Sorted mtimeGE (List.insertionSort mtimeGE dirs) :=
    List.sorted_insertionSort mtimeGE dirs
  have hdS : List.Pairwise (fun a b => a.mtime ≠ b.mtime)
      (List.insertionSort mtimeGE dirs) :=
    (hperm.pairwise_iff fun h => Ne.symm h).mpr hd
  refine ⟨fun d hdl => ?_, fun d hdl hnk => ?_, fun d hdk => ?_, fun hle d hdl => ?_,
    fun hn d hdl hmax => ?_⟩
  · rw [show (delete_old_sessions dirs n).1 = (List.insertionSort mtimeGE dirs).take n
      from rfl]
    rw [← hperm.countP_eq]
    exact sorted_take_mem_iff _ hs hdS d (hperm.mem_iff.mpr hdl) n
  · have hdS2 : d ∈ List.insertionSort mtimeGE dirs := hperm.mem_iff.mpr hdl
    have hdrop : d ∈ (List.insertionSort mtimeGE dirs).drop n := by
      rcases List.mem_append.mp ((List.take_append_drop n
        (List.insertionSort mtimeGE dirs)).symm ▸ hdS2) with h | h
      · exact absurd h hnk
      · exact h
    constructor
    · exact List.mem_flatMap.mpr ⟨d, hdrop, List.mem_append_right _ (List.mem_singleton.mpr rfl)⟩
    · intro f hf
      exact List.mem_flatMap.mpr ⟨d, hdrop,
        List.mem_append_left _ (List.mem_map_of_mem _ hf)⟩
  · exact hperm.mem_iff.mp (List.mem_of_mem_take hdk)
  · have hlen : (List.insertionSort mtimeGE dirs).length ≤ n := by
      rw [hperm.length_eq]; exact hle
    rw [show (delete_old_sessions dirs n).1 = (List.insertionSort mtimeGE dirs).take n
      from rfl]
    rw [List.take_of_length_le hlen]
    exact hperm.mem_iff.mpr hdl
  · rw [show (delete_old_sessions dirs n).1 = (List.insertionSort mtimeGE dirs).take n
      from rfl]
    have hdS2 : d ∈ List.insertionSort mtimeGE dirs := hperm.mem_iff.mpr hdl
    cases hS : List.insertionSort mtimeGE dirs with
    | nil => rw [hS] at hdS2; cases hdS2
    | cons y rest =>
      have hyd : y = d := by
        by_contra hne
        have hy : y ∈ dirs := hperm.mem_iff.mp (hS ▸ List.mem_cons_self y rest)
        have hlt : y.mtime < d.mtime := hmax y hy hne
        rw [hS] at hdS2
        rcases List.mem_cons.mp hdS2 with rfl | hdrest
        · exact hne rfl
        · have hge : mtimeGE y d := by
            rw [hS] at hs
            exact (List.sorted_cons.mp hs).1 d hdrest
          simp only [mtimeGE] at hge
          omega
      subst hyd
      cases n with
      | zero => omega
      | succ m => rw [List.take_succ_cons]; exact List.mem_cons_self y _

/-- The strictly most recent of two session directories. -/
def newerSession : SessionDir := ⟨"s_new", 2, []⟩

/-- The older of two session directories. -/
def olderSession : SessionDir := ⟨"s_old", 1, []⟩

/-- Witness for the amended C4: with two directories and max_retained 1,
the strictly most recent directory survives. -/
theorem delete_old_sessions_retention_witness :
    newerSession ∈ (delete_old_sessions [olderSession, newerSession] 1).1 :=
  (delete_old_sessions_retention [olderSession, newerSession] 1 (by decide)).2.2.2.2
    (by decide) newerSession (by decide) (by decide)
